import Mathlib

/-!
Shallow embedding of src/rideshare_tracker.py (a Streamlit rideshare
income/expense tracker) for verification of its specification.

Numeric model: Python floats are embedded as exact rationals (ℚ);
timestamps are rationals measured in seconds; dates are integers
(day ordinals).  Python round(x, n) is round-half-to-even, embedded
exactly below.  The mutable Streamlit session state plus the database
of inserted rows is embedded as an explicit AppState record, and each
button handler of the script becomes a pure state-transforming function.
-/

namespace Rideshare

/-- Round-half-to-even on ℚ, the semantics of Python round on an
exactly representable value: nearest integer, ties to the even one. -/
def pyRoundInt (q : ℚ) : ℤ :=
  let f : ℤ := ⌊q⌋
  let r : ℚ := q - f
  if r < 1/2 then f
  else if 1/2 < r then f + 1
  else if f % 2 = 0 then f else f + 1

/-- Python round(q, d): round-half-to-even at d decimal digits. -/
def pyRound (q : ℚ) (d : ℕ) : ℚ :=
  (pyRoundInt (q * 10 ^ d) : ℚ) / 10 ^ d

/-- round(x, 2), used for all monetary values in the source. -/
def round2 (q : ℚ) : ℚ := pyRound q 2

/-- round(x, 1), used for miles in the source. -/
def round1 (q : ℚ) : ℚ := pyRound q 1

/-- Source line 108-109:
def weighted_rate(numerator, denominator):
    return (numerator / denominator) if denominator and denominator > 0 else 0.0
Over ℚ the Python truthiness conjunction (denominator and denominator > 0)
is equivalent to 0 < denominator. -/
def weighted_rate (numerator denominator : ℚ) : ℚ :=
  if 0 < denominator then numerator / denominator else 0

/-- Source lines 276-280, the end-odometer validation of the finish form:
the first component is whether the st.error warning is shown, the second
is the computed miles. -/
def milesWithWarning (start_odo end_odo : ℚ) : Bool × ℚ :=
  if 0 < start_odo ∧ end_odo < start_odo then (true, 0)
  else (false, if 0 < start_odo then round1 (max (end_odo - start_odo) 0) else 0)

/-- The miles value computed by the finish form (spec name compute_miles). -/
def compute_miles (start_odo end_odo : ℚ) : ℚ :=
  (milesWithWarning start_odo end_odo).2

/-- Source line 349: deductible = round(amount * (business_pct / 100), 2).
business_pct is the integer slider value. -/
def compute_expense_deductible (amount : ℚ) (business_pct : ℤ) : ℚ :=
  round2 (amount * ((business_pct : ℚ) / 100))

/-- The status tag stored in st.session_state["active_shift"]["status"]
(source lines 203, 224, 245). -/
inductive Status where
  | awaiting_start_odo
  | running
  | awaiting_end_odo
deriving DecidableEq, Repr

/-- The in-flight shift dictionary st.session_state["active_shift"]
(source lines 197-204, 223-224, 244-245).  Keys added only by a later
transition (start_odo, end_ts) are Options. -/
structure InFlight where
  shift_date : ℤ
  platform : String
  shift_label : String
  notes : String
  start_ts : ℚ
  status : Status
  start_odo : Option ℚ
  end_ts : Option ℚ
deriving DecidableEq, Repr

/-- One row inserted into public.shifts by insert_shift (source lines
292-310).  The start_time/end_time columns, which only hold the
strftime "%H:%M" rendering of start_ts/end_ts, are omitted. -/
structure ShiftRow where
  shift_date : ℤ
  platform : String
  shift_label : String
  start_ts : ℚ
  end_ts : ℚ
  online_hours : ℚ
  gross_fares : ℚ
  in_app_tips : ℚ
  bonuses : ℚ
  cash_tips : ℚ
  total_income : ℚ
  miles : ℚ
  rides : ℤ
  notes : String
  hourly_rate : ℚ
deriving DecidableEq, Repr

/-- Process state: the single active-shift slot plus the shifts table
(the Ledger), as the ordered list of rows inserted so far. -/
structure AppState where
  active_shift : Option InFlight
  ledger : List ShiftRow
deriving DecidableEq, Repr

/-- The Start Shift button handler (source lines 195-206): only offered
when no shift is active; captures start_ts = now and enters
awaiting_start_odo. -/
def startShiftAction (st : AppState) (now : ℚ) (shift_date : ℤ)
    (platform shift_label pre_notes : String) : AppState :=
  match st.active_shift with
  | none => { st with active_shift := some (
      { shift_date := shift_date, platform := platform,
        shift_label := shift_label, notes := pre_notes,
        start_ts := now, status := Status.awaiting_start_odo,
        start_odo := none, end_ts := none } : InFlight) }
  | some _ => st

/-- The Save Start Mileage button handler (source lines 222-225): only
offered in awaiting_start_odo; stores start_odo and enters running. -/
def saveStartOdoAction (st : AppState) (start_odo : ℚ) : AppState :=
  match st.active_shift with
  | some a =>
      if a.status = Status.awaiting_start_odo then
        { st with active_shift := some (
            { a with start_odo := some start_odo, status := Status.running }) }
      else st
  | none => st

/-- The End Shift button handler (source lines 243-246): only offered in
running; captures end_ts = now and enters awaiting_end_odo. -/
def endShiftAction (st : AppState) (now : ℚ) : AppState :=
  match st.active_shift with
  | some a =>
      if a.status = Status.running then
        { st with active_shift := some (
            { a with end_ts := some now, status := Status.awaiting_end_odo }) }
      else st
  | none => st

/-- The Cancel Shift button handlers (source lines 227-229, 248-250,
316-318), one per non-initial status, all with the same body:
st.session_state["active_shift"] = None.  No insert is performed. -/
def cancelShiftAction (st : AppState) : AppState :=
  { st with active_shift := none }

/-- The Save Shift button handler (source lines 291-314) together with
the derivations of the finish form (lines 254, 276-283).  ok models the
outcome of the insert_shift call: when the Ledger write raises
(PersistenceError), the exception propagates out of the handler before
the line clearing the slot runs, so the session state (slot and table)
is unchanged and the error is surfaced; the second component of the
result is the surfaced error, none on success. -/
def saveShiftAction (st : AppState) (ok : Bool) (end_odo : ℚ) (rides : ℤ)
    (gross tips bonuses cash : ℚ) (notes : String) :
    AppState × Option String :=
  match st.active_shift with
  | some a =>
      match a.status, a.end_ts with
      | Status.awaiting_end_odo, some end_ts =>
          let online_hours := round2 ((end_ts - a.start_ts) / 3600)
          let start_odo := a.start_odo.getD 0
          let miles := compute_miles start_odo end_odo
          let total_income := round2 (gross + tips + bonuses + cash)
          let hourly_rate := round2 (weighted_rate total_income online_hours)
          let row : ShiftRow :=
            { shift_date := a.shift_date, platform := a.platform,
              shift_label := a.shift_label, start_ts := a.start_ts,
              end_ts := end_ts, online_hours := online_hours,
              gross_fares := gross, in_app_tips := tips,
              bonuses := bonuses, cash_tips := cash,
              total_income := total_income, miles := miles,
              rides := rides, notes := notes, hourly_rate := hourly_rate }
          if ok then
            ({ active_shift := none, ledger := st.ledger ++ [row] }, none)
          else
            (st, some "PersistenceError")
      | _, _ => (st, none)
  | none => (st, none)

/-- One row inserted into public.expenses by insert_expense (source
lines 160-174, 354-364). -/
structure ExpenseInsertRow where
  exp_date : ℤ
  category : String
  description : String
  amount : ℚ
  business_use_pct : ℤ
  deductible_amount : ℚ
  notes : String
deriving DecidableEq, Repr

/-- The Save Expense button handler (source lines 354-366): the row is
assembled from the form inputs, with deductible_amount the value from
line 349, recomputed from amount and the slider percentage. -/
def saveExpenseAction (expenses : List ExpenseInsertRow) (exp_date : ℤ)
    (category description : String) (amount : ℚ) (business_pct : ℤ)
    (notes : String) : List ExpenseInsertRow :=
  let r : ExpenseInsertRow :=
    { exp_date := exp_date, category := category,
      description := description, amount := amount,
      business_use_pct := business_pct,
      deductible_amount := compute_expense_deductible amount business_pct,
      notes := notes }
  expenses ++ [r]

/-- The columns of a loaded expense row that the dashboard reads
(source lines 431-437, 466, 500).  exp_date is a day ordinal; the
expenses table declares it not null. -/
structure ExpenseRow where
  exp_date : ℤ
  category : String
  deductible_amount : ℚ
deriving DecidableEq, Repr

/-- Source line 457: EXTRA_CATS = {"Parking/Tolls", "Phone", "Supplies", "Other"}. -/
def EXTRA_CATS : List String := ["Parking/Tolls", "Phone", "Supplies", "Other"]

/-- Source lines 431-435: the date-range mask applied to the expenses
frame, e = expenses_df[emask]. -/
def filterDateRange (es : List ExpenseRow) (start_date end_date : ℤ) :
    List ExpenseRow :=
  es.filter (fun r => start_date ≤ r.exp_date ∧ r.exp_date ≤ end_date)

/-- Source lines 466 and 500: the extra-expenses add-on,
e[e["category"].isin(list(EXTRA_CATS))]["deductible_amount"].sum(); the
guard if len(e) in the source only short-circuits the empty frame, whose
sum is 0 anyway. -/
def extraExpensesOf (e : List ExpenseRow) : ℚ :=
  ((e.filter (fun r => r.category ∈ EXTRA_CATS)).map
    ExpenseRow.deductible_amount).sum

/-- The five derived metrics of the True Cost panel. -/
structure TrueCostResult where
  vehicle_cost : ℚ
  extra_expenses : ℚ
  true_cost_total : ℚ
  true_net : ℚ
  true_per_hour : ℚ
deriving DecidableEq, Repr

/-- The IRS mileage rate branch (source lines 461-470).  total_income,
total_hours, total_miles are the dashboard sums over the filtered
shifts; e is the date-range-filtered expense list. -/
def trueCostIRS (total_income total_hours total_miles rate : ℚ)
    (e : List ExpenseRow) : TrueCostResult :=
  let vehicle_cost := total_miles * rate
  let extra_expenses := extraExpensesOf e
  let true_cost_total := vehicle_cost + extra_expenses
  let true_net := total_income - true_cost_total
  { vehicle_cost := vehicle_cost, extra_expenses := extra_expenses,
    true_cost_total := true_cost_total, true_net := true_net,
    true_per_hour := weighted_rate true_net total_hours }

/-- Source line 495: depreciation_per_mile =
max(purchase_price - resale_value, 0.0) / float(lifetime_miles). -/
def depreciation_per_mile (purchase_price resale_value lifetime_miles : ℚ) : ℚ :=
  max (purchase_price - resale_value) 0 / lifetime_miles

/-- Source line 496: fuel_per_mile = (gas_price / mpg) if mpg else 0.0.
Python truthiness: the fallback fires exactly at mpg == 0, not for
negative mpg (the mpg input widget has minimum 1.0). -/
def fuel_per_mile (gas_price mpg : ℚ) : ℚ :=
  if mpg ≠ 0 then gas_price / mpg else 0

/-- The custom per-mile model branch (source lines 478-504). -/
def trueCostCustom (total_income total_hours total_miles : ℚ)
    (purchase_price resale_value lifetime_miles mpg gas_price : ℚ)
    (maint_per_mile tires_per_mile misc_per_mile : ℚ)
    (include_extras : Bool) (e : List ExpenseRow) : TrueCostResult :=
  let per_mile := depreciation_per_mile purchase_price resale_value lifetime_miles
    + fuel_per_mile gas_price mpg + maint_per_mile + tires_per_mile + misc_per_mile
  let vehicle_cost := total_miles * per_mile
  let extra_expenses := if include_extras then extraExpensesOf e else 0
  let true_cost_total := vehicle_cost + extra_expenses
  let true_net := total_income - true_cost_total
  { vehicle_cost := vehicle_cost, extra_expenses := extra_expenses,
    true_cost_total := true_cost_total, true_net := true_net,
    true_per_hour := weighted_rate true_net total_hours }

/-- A stored row of public.shifts as seen by the load_shifts query
(source lines 111-126): only the columns the where/order-by clauses
touch are modelled; shift_date and platform are nullable because the
query defends against legacy rows violating the current schema. -/
structure DbShiftRow where
  created_at : ℤ
  shift_date : Option ℤ
  platform : Option String
deriving DecidableEq, Repr

/-- SQL trim(s): strip leading and trailing space characters. -/
def sqlTrim (s : String) : String :=
  String.mk (((s.data.dropWhile (· = ' ')).reverse.dropWhile (· = ' ')).reverse)

/-- The where clause of load_shifts (source lines 121-123):
shift_date is not null and platform is not null and
trim(lower(platform)) <> 'platform'. -/
def keepShift (r : DbShiftRow) : Bool :=
  match r.shift_date, r.platform with
  | some _, some p => sqlTrim p.toLower ≠ "platform"
  | _, _ => false

/-- The order-by key of load_shifts (source line 124):
shift_date desc, created_at desc.  shiftLE a b holds when a sorts no
later than b in that descending order.  Kept rows always have a some
shift_date, so the getD default never matters after the filter. -/
def shiftLE (a b : DbShiftRow) : Prop :=
  b.shift_date.getD 0 < a.shift_date.getD 0 ∨
    (b.shift_date.getD 0 = a.shift_date.getD 0 ∧ b.created_at ≤ a.created_at)

instance : DecidableRel shiftLE := fun a b => by
  unfold shiftLE; infer_instance

instance : IsTotal DbShiftRow shiftLE where
  total a b := by unfold shiftLE; omega

instance : IsTrans DbShiftRow shiftLE where
  trans a b c hab hbc := by
    unfold shiftLE at hab hbc ⊢; omega

/-- Source lines 111-126: load_shifts filters by the where clause and
returns rows ordered by shift_date desc, created_at desc.  The SQL
engine's sort is modelled by a stable sort with respect to shiftLE. -/
def load_shifts (db : List DbShiftRow) : List DbShiftRow :=
  List.insertionSort shiftLE (db.filter keepShift)

/-- C2: weighted_rate returns numerator/denominator whenever the
denominator is positive and the defined fallback 0 whenever it is
nonpositive (the function is total, so no numeric input can raise);
consequently the derived hourly_rate round2 (weighted_rate ...) is 0
for every online_hours ≤ 0. -/
theorem C2_weighted_rate_guard (numerator denominator : ℚ) :
    (0 < denominator →
      weighted_rate numerator denominator = numerator / denominator) ∧
    (denominator ≤ 0 → weighted_rate numerator denominator = 0) ∧
    (∀ online_hours : ℚ, online_hours ≤ 0 → ∀ total_income : ℚ,
      round2 (weighted_rate total_income online_hours) = 0) := by
  refine ⟨fun h => if_pos h, fun h => if_neg (not_lt.mpr h), ?_⟩
  intro oh hoh ti
  rw [weighted_rate, if_neg (not_lt.mpr hoh)]
  norm_num [round2, pyRound, pyRoundInt]

/-- Witness for C2 at denominators 4, -2 and 0. -/
theorem C2_weighted_rate_guard_witness :
    weighted_rate 125 4 = 125 / 4 ∧ weighted_rate 7 (-2) = 0 ∧
      round2 (weighted_rate 9 0) = 0 :=
  ⟨(C2_weighted_rate_guard 125 4).1 (by norm_num),
   (C2_weighted_rate_guard 7 (-2)).2.1 (by norm_num),
   (C2_weighted_rate_guard 9 0).2.2 0 le_rfl 9⟩

/-- C3: miles is 0 whenever the start odometer was not captured
(start_odo ≤ 0), 0 on the InvalidOdometerReading fallback
(0 < start_odo and end_odo < start_odo), and round1 (end_odo -
start_odo) otherwise; in particular compute_miles 0 x = 0 for every x
and compute_miles 100 150 = 50. -/
theorem C3_compute_miles_cases (start_odo end_odo : ℚ) :
    (start_odo ≤ 0 → compute_miles start_odo end_odo = 0) ∧
    (0 < start_odo → end_odo < start_odo →
      compute_miles start_odo end_odo = 0) ∧
    (0 < start_odo → start_odo ≤ end_odo →
      compute_miles start_odo end_odo = round1 (end_odo - start_odo)) ∧
    (∀ x : ℚ, compute_miles 0 x = 0) ∧
    compute_miles 100 150 = 50 := by
  refine ⟨?_, ?_, ?_, ?_, ?_⟩
  · intro h
    rw [compute_miles, milesWithWarning,
      if_neg (fun hc => absurd hc.1 (not_lt.mpr h))]
    simp [not_lt.mpr h]
  · intro h1 h2
    rw [compute_miles, milesWithWarning, if_pos ⟨h1, h2⟩]
  · intro h1 h2
    rw [compute_miles, milesWithWarning,
      if_neg (fun hc => absurd hc.2 (not_lt.mpr h2)), if_pos h1,
      max_eq_left (sub_nonneg.mpr h2)]
  · intro x
    rw [compute_miles, milesWithWarning]
    norm_num
  · rw [compute_miles, milesWithWarning]
    norm_num [round1, pyRound, pyRoundInt]

/-- Witness for C3 at the inputs (0, 7), (100, 95) and (100, 150). -/
theorem C3_compute_miles_cases_witness :
    compute_miles 0 7 = 0 ∧ compute_miles 100 95 = 0 ∧
      compute_miles 100 150 = round1 (150 - 100) :=
  ⟨(C3_compute_miles_cases 0 7).1 le_rfl,
   (C3_compute_miles_cases 100 95).2.1 (by norm_num) (by norm_num),
   (C3_compute_miles_cases 100 150).2.2.1 (by norm_num) (by norm_num)⟩

/-- C9: every saved expense appends exactly one row whose persisted
deductible_amount is round2 (amount * business_use_pct / 100) recomputed
from the amount and percentage of that save; compute_expense_deductible
evaluates to 40 on (80, 50) and 80 on (80, 100). -/
theorem C9_expense_deductible (expenses : List ExpenseInsertRow)
    (exp_date : ℤ) (category description : String) (amount : ℚ)
    (business_pct : ℤ) (notes : String) :
    (∃ r : ExpenseInsertRow,
      saveExpenseAction expenses exp_date category description amount
          business_pct notes = expenses ++ [r] ∧
      r.deductible_amount = round2 (amount * ((business_pct : ℚ) / 100)) ∧
      r.amount = amount ∧ r.business_use_pct = business_pct) ∧
    compute_expense_deductible 80 50 = 40 ∧
    compute_expense_deductible 80 100 = 80 := by
  refine ⟨⟨{ exp_date := exp_date, category := category,
             description := description, amount := amount,
             business_use_pct := business_pct,
             deductible_amount :=
               compute_expense_deductible amount business_pct,
             notes := notes }, rfl, rfl, rfl, rfl⟩, ?_, ?_⟩
  · norm_num [compute_expense_deductible, round2, pyRound, pyRoundInt]
  · norm_num [compute_expense_deductible, round2, pyRound, pyRoundInt]

/-- C5 counterexample: the code guards fuel_per_mile with Python
truthiness (mpg != 0), not with mpg > 0, so at gas_price = 7 and
mpg = -1 it returns 7 / (-1) = -7, where the claim asserts 0 for
every mpg ≤ 0. -/
theorem C5_fuel_guard_counterexample :
    fuel_per_mile 7 (-1) = -7 ∧ fuel_per_mile 7 (-1) ≠ 0 := by
  norm_num [fuel_per_mile]

/-- C5 (amended): depreciation_per_mile = max(purchase - resale, 0) /
lifetime_miles, equal to exactly 0.06 on (20000, 8000, 200000);
fuel_per_mile = gas_price / mpg whenever mpg ≠ 0 (in particular for
every mpg > 0, the only values the UI admits) and 0 when mpg = 0;
per_mile is the sum of the five per-mile components and
vehicle_cost = total_miles * per_mile. -/
theorem C5_custom_per_mile_model (total_income total_hours total_miles : ℚ)
    (purchase resale lifetime mpg gas maint tires misc : ℚ)
    (include_extras : Bool) (e : List ExpenseRow) :
    depreciation_per_mile 20000 8000 200000 = 6 / 100 ∧
    (mpg ≠ 0 → fuel_per_mile gas mpg = gas / mpg) ∧
    (mpg = 0 → fuel_per_mile gas mpg = 0) ∧
    (trueCostCustom total_income total_hours total_miles purchase resale
        lifetime mpg gas maint tires misc include_extras e).vehicle_cost =
      total_miles * (depreciation_per_mile purchase resale lifetime +
        fuel_per_mile gas mpg + maint + tires + misc) := by
  refine ⟨?_, fun h => if_pos h, fun h => if_neg (fun hc => hc h), rfl⟩
  norm_num [depreciation_per_mile]

/-- Witness for C5 (amended) at mpg = 25 and mpg = 0. -/
theorem C5_custom_per_mile_model_witness :
    depreciation_per_mile 20000 8000 200000 = 6 / 100 ∧
      fuel_per_mile (7/2) 25 = (7/2) / 25 ∧ fuel_per_mile (7/2) 0 = 0 :=
  ⟨(C5_custom_per_mile_model 0 0 0 0 0 0 25 (7/2) 0 0 0 false []).1,
   (C5_custom_per_mile_model 0 0 0 0 0 0 25 (7/2) 0 0 0 false []).2.1
     (by norm_num),
   (C5_custom_per_mile_model 0 0 0 0 0 0 0 (7/2) 0 0 0 false []).2.2.1 rfl⟩

/-- C4: under both true-cost methods, extra_expenses is the sum of
deductible_amount over the expenses in the active date range whose
category lies in EXTRA_CATS (under the custom method only when
include_extras is set, and 0 otherwise); true_cost_total, true_net and
true_per_hour are assembled by the claimed formulas from it; the IRS
vehicle_cost is total_miles * rate, and rate = 0.67 with
total_miles = 1000 gives vehicle_cost = 670. -/
theorem C4_true_cost_assembly (total_income total_hours total_miles rate : ℚ)
    (es : List ExpenseRow) (start_date end_date : ℤ) (include_extras : Bool)
    (purchase resale lifetime mpg gas maint tires misc : ℚ) :
    let e := filterDateRange es start_date end_date
    let rangeSum := ((es.filter (fun r =>
        (start_date ≤ r.exp_date ∧ r.exp_date ≤ end_date) ∧
        r.category ∈ EXTRA_CATS)).map ExpenseRow.deductible_amount).sum
    let irs := trueCostIRS total_income total_hours total_miles rate e
    let cust := trueCostCustom total_income total_hours total_miles purchase
      resale lifetime mpg gas maint tires misc include_extras e
    irs.extra_expenses = rangeSum ∧
    cust.extra_expenses = (if include_extras then rangeSum else 0) ∧
    irs.vehicle_cost = total_miles * rate ∧
    irs.true_cost_total = irs.vehicle_cost + irs.extra_expenses ∧
    irs.true_net = total_income - irs.true_cost_total ∧
    irs.true_per_hour = weighted_rate irs.true_net total_hours ∧
    cust.true_cost_total = cust.vehicle_cost + cust.extra_expenses ∧
    cust.true_net = total_income - cust.true_cost_total ∧
    cust.true_per_hour = weighted_rate cust.true_net total_hours ∧
    (trueCostIRS total_income total_hours 1000 (67 / 100) e).vehicle_cost
      = 670 := by
  intro e rangeSum irs cust
  have hcomp : extraExpensesOf e = rangeSum := by
    show extraExpensesOf (filterDateRange es start_date end_date) = _
    unfold extraExpensesOf filterDateRange
    rw [List.filter_filter]
    have hpred : ∀ a ∈ es,
        (decide (a.category ∈ EXTRA_CATS) &&
          decide (start_date ≤ a.exp_date ∧ a.exp_date ≤ end_date)) =
        decide ((start_date ≤ a.exp_date ∧ a.exp_date ≤ end_date) ∧
          a.category ∈ EXTRA_CATS) := by
      intro a _
      simp [Bool.and_comm]
    rw [List.filter_congr hpred]
  refine ⟨hcomp, ?_, rfl, rfl, rfl, rfl, rfl, rfl, rfl, ?_⟩
  · show (if include_extras then extraExpensesOf e else 0)
      = if include_extras then rangeSum else 0
    rw [hcomp]
  · show (1000 : ℚ) * (67 / 100) = 670
    norm_num

/-- C10: load_shifts returns exactly the stored rows having a non-null
shift_date and a non-null platform whose trimmed lowercased text is not
the literal string "platform" (all listings and dashboard aggregates
read through this function), ordered by shift_date descending then
created_at descending. -/
theorem C10_load_shifts_filter_and_order (db : List DbShiftRow)
    (r : DbShiftRow) :
    (r ∈ load_shifts db ↔ r ∈ db ∧ r.shift_date ≠ none ∧
      ∃ p, r.platform = some p ∧ sqlTrim p.toLower ≠ "platform") ∧
    List.Sorted shiftLE (load_shifts db) := by
  constructor
  · rw [load_shifts, List.mem_insertionSort, List.mem_filter]
    have hk : (keepShift r = true) ↔ (r.shift_date ≠ none ∧
        ∃ p, r.platform = some p ∧ sqlTrim p.toLower ≠ "platform") := by
      obtain ⟨c, sd, pf⟩ := r
      cases sd <;> cases pf <;> simp [keepShift]
    rw [hk]
  · exact List.sorted_insertionSort shiftLE _

/-- C1: from the empty slot, a start / saveStartOdometer / end /
finalize run with a successful insert appends exactly one row to the
Ledger; its online_hours is round2 of the hour difference of the
timestamps captured at the start and end actions, its total_income is
round2 (gross + tips + bonuses + cash), and its hourly_rate is
round2 (weighted_rate total_income online_hours); afterwards the
active-shift slot is empty again. -/
theorem C1_finalize_persists_one_shift (st : AppState)
    (h : st.active_shift = none) (t0 t1 : ℚ) (d : ℤ)
    (platform label pre_notes : String) (odo end_odo : ℚ) (rides : ℤ)
    (gross tips bonuses cash : ℚ) (notes : String) :
    ∃ row : ShiftRow,
      saveShiftAction (endShiftAction (saveStartOdoAction
          (startShiftAction st t0 d platform label pre_notes) odo) t1)
          true end_odo rides gross tips bonuses cash notes
        = ({ active_shift := none, ledger := st.ledger ++ [row] }, none) ∧
      row.online_hours = round2 ((t1 - t0) / 3600) ∧
      row.total_income = round2 (gross + tips + bonuses + cash) ∧
      row.hourly_rate = round2 (weighted_rate
        (round2 (gross + tips + bonuses + cash))
        (round2 ((t1 - t0) / 3600))) := by
  obtain ⟨act, led⟩ := st
  obtain rfl : act = none := h
  refine ⟨{ shift_date := d, platform := platform, shift_label := label,
            start_ts := t0, end_ts := t1,
            online_hours := round2 ((t1 - t0) / 3600),
            gross_fares := gross, in_app_tips := tips, bonuses := bonuses,
            cash_tips := cash,
            total_income := round2 (gross + tips + bonuses + cash),
            miles := compute_miles odo end_odo, rides := rides,
            notes := notes,
            hourly_rate := round2 (weighted_rate
              (round2 (gross + tips + bonuses + cash))
              (round2 ((t1 - t0) / 3600))) }, rfl, rfl, rfl, rfl⟩

/-- Witness for C1: a 4-hour Uber shift from odometer 1000 to 1120
earning 100 + 20 + 5 + 0. -/
theorem C1_finalize_persists_one_shift_witness :
    ∃ row : ShiftRow,
      saveShiftAction (endShiftAction (saveStartOdoAction
          (startShiftAction ⟨none, []⟩ 0 20240601 "Uber" "" "") 1000) 14400)
          true 1120 10 100 20 5 0 ""
        = ({ active_shift := none, ledger := [] ++ [row] }, none) ∧
      row.online_hours = round2 ((14400 - 0) / 3600) ∧
      row.total_income = round2 (100 + 20 + 5 + 0) ∧
      row.hourly_rate = round2 (weighted_rate (round2 (100 + 20 + 5 + 0))
        (round2 ((14400 - 0) / 3600))) :=
  C1_finalize_persists_one_shift ⟨none, []⟩ rfl 0 14400 20240601 "Uber"
    "" "" 1000 1120 10 100 20 5 0 ""

/-- C6: cancel always empties the active-shift slot and never writes to
the Ledger, whatever the current state; neither do the start, start
odometer, or end actions, so nothing is persisted before finalize. -/
theorem C6_cancel_discards_without_persisting (st : AppState)
    (now t odo : ℚ) (d : ℤ) (p l n : String) :
    (cancelShiftAction st).active_shift = none ∧
    (cancelShiftAction st).ledger = st.ledger ∧
    (startShiftAction st now d p l n).ledger = st.ledger ∧
    (saveStartOdoAction st odo).ledger = st.ledger ∧
    (endShiftAction st t).ledger = st.ledger := by
  obtain ⟨act, led⟩ := st
  refine ⟨rfl, rfl, ?_, ?_, ?_⟩
  · cases act <;> rfl
  · cases act with
    | none => rfl
    | some a =>
        by_cases hs : a.status = Status.awaiting_start_odo <;>
          simp [saveStartOdoAction, hs]
  · cases act with
    | none => rfl
    | some a =>
        by_cases hs : a.status = Status.running <;>
          simp [endShiftAction, hs]

/-- C7: with a positive captured start odometer and an entered end
odometer below it, the finish form shows the warning and computes
miles = 0; the preview is a pure function of the state, so the
controller remains in awaiting_end_odo; saving is not blocked, as
finalize still persists exactly one row, with miles = 0, and empties
the slot; and re-entering any end odometer at or above the start gives
the normal round1 (end - start) miles with no warning. -/
theorem C7_invalid_end_odometer_recoverable (st : AppState) (a : InFlight)
    (h : st.active_shift = some a) (hs : a.status = Status.awaiting_end_odo)
    (ets so : ℚ) (he : a.end_ts = some ets) (ho : a.start_odo = some so)
    (hpos : 0 < so) (end_odo : ℚ) (hlt : end_odo < so) (rides : ℤ)
    (gross tips bonuses cash : ℚ) (notes : String) :
    milesWithWarning so end_odo = (true, 0) ∧
    (∃ row : ShiftRow,
      saveShiftAction st true end_odo rides gross tips bonuses cash notes
        = ({ active_shift := none, ledger := st.ledger ++ [row] }, none) ∧
      row.miles = 0) ∧
    (∀ e2 : ℚ, so ≤ e2 →
      milesWithWarning so e2 = (false, round1 (e2 - so))) := by
  have hw : milesWithWarning so end_odo = (true, 0) := by
    unfold milesWithWarning
    exact if_pos ⟨hpos, hlt⟩
  have hm : compute_miles so end_odo = 0 := by
    rw [compute_miles, hw]
  refine ⟨hw, ?_, ?_⟩
  · obtain ⟨act, led⟩ := st
    obtain rfl : act = some a := h
    obtain ⟨ad, ap, al, an, ats, ast, aso, aet⟩ := a
    obtain rfl : ast = Status.awaiting_end_odo := hs
    obtain rfl : aet = some ets := he
    obtain rfl : aso = some so := ho
    exact ⟨_, rfl, hm⟩
  · intro e2 he2
    unfold milesWithWarning
    rw [if_neg (fun hc => absurd hc.2 (not_lt.mpr he2)), if_pos hpos,
      max_eq_left (sub_nonneg.mpr he2)]

/-- Witness for C7: start odometer 100, invalid entry 95, corrected
entry 150. -/
theorem C7_invalid_end_odometer_recoverable_witness :
    milesWithWarning 100 95 = (true, 0) ∧
    (∃ row : ShiftRow, saveShiftAction
        ⟨some ⟨0, "Uber", "", "", 0, Status.awaiting_end_odo, some 100,
          some 3600⟩, []⟩ true 95 0 0 0 0 0 ""
        = ({ active_shift := none, ledger := [] ++ [row] }, none) ∧
      row.miles = 0) ∧
    milesWithWarning 100 150 = (false, round1 (150 - 100)) := by
  obtain ⟨h1, h2, h3⟩ := C7_invalid_end_odometer_recoverable
    ⟨some ⟨0, "Uber", "", "", 0, Status.awaiting_end_odo, some 100,
      some 3600⟩, []⟩
    ⟨0, "Uber", "", "", 0, Status.awaiting_end_odo, some 100, some 3600⟩
    rfl rfl 3600 100 rfl rfl (by norm_num) 95 (by norm_num) 0 0 0 0 0 ""
  exact ⟨h1, h2, h3 150 (by norm_num)⟩

/-- C8: when the Ledger insert raises during finalize, the handler
surfaces the PersistenceError and the session state is returned
unchanged: the slot still holds the same in-flight shift and the
Ledger the same rows, so the operator can retry with nothing lost;
the slot is emptied only on the successful-insert path. -/
theorem C8_persistence_failure_preserves_state (st : AppState)
    (a : InFlight) (h : st.active_shift = some a)
    (hs : a.status = Status.awaiting_end_odo) (ets : ℚ)
    (he : a.end_ts = some ets) (end_odo : ℚ) (rides : ℤ)
    (gross tips bonuses cash : ℚ) (notes : String) :
    saveShiftAction st false end_odo rides gross tips bonuses cash notes
      = (st, some "PersistenceError") ∧
    (saveShiftAction st true end_odo rides gross tips bonuses cash
        notes).1.active_shift = none := by
  obtain ⟨act, led⟩ := st
  obtain rfl : act = some a := h
  obtain ⟨ad, ap, al, an, ats, ast, aso, aet⟩ := a
  obtain rfl : ast = Status.awaiting_end_odo := hs
  obtain rfl : aet = some ets := he
  exact ⟨rfl, rfl⟩

/-- Witness for C8 at a concrete awaiting_end_odo state. -/
theorem C8_persistence_failure_preserves_state_witness :
    saveShiftAction ⟨some ⟨0, "Lyft", "", "", 0, Status.awaiting_end_odo,
        some 100, some 7200⟩, []⟩ false 150 3 50 5 0 0 "n"
      = (⟨some ⟨0, "Lyft", "", "", 0, Status.awaiting_end_odo, some 100,
          some 7200⟩, []⟩, some "PersistenceError") ∧
    (saveShiftAction ⟨some ⟨0, "Lyft", "", "", 0, Status.awaiting_end_odo,
        some 100, some 7200⟩, []⟩ true 150 3 50 5 0 0
        "n").1.active_shift = none :=
  C8_persistence_failure_preserves_state
    ⟨some ⟨0, "Lyft", "", "", 0, Status.awaiting_end_odo, some 100,
      some 7200⟩, []⟩
    ⟨0, "Lyft", "", "", 0, Status.awaiting_end_odo, some 100, some 7200⟩
    rfl rfl 7200 rfl 150 3 50 5 0 0 "n"

end Rideshare
